import Mathlib

/-!
Shallow embedding of the ClearCV resume-analysis core.

The embedded code is the scoring and insight pipeline:
`calculate_overall_score`, `calculate_category_scores` and
`generate_recruiter_insights` from `src/analysis.py`, and the result
normalization loop from `main` in `src/app.py` (lines 98-103).

Numeric conventions: severities are JSON integers, modelled as `Int`;
scores are modelled as exact rationals.  Python `round(x, 1)` is modelled
by `round1` below (round to the nearest tenth); both the embedded code
and the spec-side formulas use the same `round1`, so theorems comparing
them are insensitive to the tie-breaking convention.
-/

/-- A well-formed check-result record, with all five dict keys present, as
consumed by the analysis functions in `src/analysis.py`. -/
structure CheckResult where
  check_name : String
  passed : Bool
  explanation : String
  severity : Int
  category : String
deriving Repr, DecidableEq, Inhabited

/-- Round a rational to one decimal place (models Python `round(x, 1)`). -/
def round1 (q : ℚ) : ℚ := (round (10 * q) : ℤ) / 10

/-- The significance filter used throughout `src/analysis.py`:
`not check['passed'] and check['severity'] >= 4`. -/
def isSignificant (c : CheckResult) : Bool := !c.passed && decide (4 ≤ c.severity)

/-- Sum of the severities of the significant issues: the value
`total_severity` computed in `calculate_overall_score`. -/
def sigSeveritySum (results : List CheckResult) : Int :=
  ((results.filter isSignificant).map (fun c => c.severity)).sum

/-- The function `calculate_overall_score` of `src/analysis.py` (lines 113-131),
with the severity-penalty coefficient abstracted as `K`: `src/analysis.py`
hardcodes `0.77`, the `src/Previous Code Files/c4.py` variant hardcodes `1.2`. -/
def calculate_overall_score_K (K : ℚ) (results : List CheckResult) : ℚ :=
  if results = [] then 0
  else
    let base_score : ℚ := 100
    let total_severity : Int := sigSeveritySum results
    let score := base_score - (total_severity * K)
    let score := max 0 (min 100 score)
    round1 score

/-- `calculate_overall_score` as it appears in `src/analysis.py`, where the
coefficient is the literal `0.77`. -/
def calculate_overall_score (results : List CheckResult) : ℚ :=
  calculate_overall_score_K (77 / 100) results

/-- The keys of the `categories` dict in `calculate_category_scores`. -/
def categoryNames : List String :=
  ["Content", "Format", "Consistency", "Relevance", "Credibility"]

/-- The per-record demotion inside `calculate_category_scores` (lines 144-150):
the copy of a non-significant failed check has `passed` set to `True`;
its `severity`, `explanation` and `category` are left unchanged. -/
def demote (check : CheckResult) : CheckResult :=
  if !(isSignificant check) && !check.passed then { check with passed := true }
  else check

/-- The bucket `categories[cat]` built by the grouping loop of
`calculate_category_scores`: demoted copies of the records whose
`category` equals `cat`, in input order. -/
def categoryBucket (category_results : List CheckResult) (cat : String) : List CheckResult :=
  (category_results.map demote).filter (fun c => c.category = cat)

/-- The per-category score computation of `calculate_category_scores`
(lines 157-173). -/
def categoryScore (checks : List CheckResult) : ℚ :=
  if checks = [] then 100
  else
    let passed : Nat := (checks.filter (fun c => c.passed)).length
    let total : Nat := checks.length
    let severity_sum : Int :=
      ((checks.filter (fun c => !c.passed)).map (fun c => c.severity)).sum
    let severity_deduction : ℚ := if 0 < total then severity_sum * (10 / (total : ℚ)) else 0
    let score : ℚ := if 0 < total then 100 * ((passed : ℚ) / (total : ℚ)) else 100
    let score := max 0 (score - severity_deduction)
    round1 score

/-- The function `calculate_category_scores` of `src/analysis.py`
(lines 133-175), returning the category-score mapping as an association
list over the five fixed categories. -/
def calculate_category_scores (category_results : List CheckResult) : List (String × ℚ) :=
  categoryNames.map (fun cat => (cat, categoryScore (categoryBucket category_results cat)))

/-- A JSON value that is either a single string or an array of strings, the
two shapes `top_skills` and `wow_factor` take in the LLM payload. -/
inductive SVal where
  | str (s : String)
  | list (l : List String)
deriving Repr, DecidableEq

/-- Python truthiness of an `SVal`: a string is truthy iff non-empty, a list
iff non-empty. -/
def SVal.truthy : SVal → Bool
  | .str s => s ≠ ""
  | .list l => l ≠ []

/-- The `strengths` dict consumed by `generate_recruiter_insights`.  The code
reads it with `strengths.get("top_skills", [])` and
`strengths.get("wow_factor", "")`, so an absent key is modelled by the
corresponding falsy default value. -/
structure Strengths where
  top_skills : SVal := .list []
  wow_factor : SVal := .str ""
deriving Repr, DecidableEq

/-- One insight dict produced by `generate_recruiter_insights`. -/
structure Insight where
  type : String
  title : String
  description : String
  items : List String
deriving Repr, DecidableEq

/-- The item format shared by the critical and warning groups:
`f"{check['check_name']}: {check['explanation']}"`. -/
def checkItem (c : CheckResult) : String := c.check_name ++ ": " ++ c.explanation

/-- The standout-feature line(s) built from `wow_factor` inside
`generate_recruiter_insights` (lines 217-227): nothing when falsy; for a
list, all elements but the last joined with `", "`, then `", and {last}"`
appended when the length exceeds 1, else the single element; for a string,
the string itself. -/
def wowItem : SVal → List String
  | .list l =>
    if (SVal.list l).truthy then
      let joined_wow := String.intercalate ", " l.dropLast
      let joined_wow := if 1 < l.length then joined_wow ++ ", and " ++ l.getLastD ""
                        else l.headD ""
      ["Standout feature: " ++ joined_wow]
    else []
  | .str s => if (SVal.str s).truthy then ["Standout feature: " ++ s] else []

/-- The top-skills line(s) built from `top_skills` inside
`generate_recruiter_insights` (lines 211-215). -/
def topSkillsItem : SVal → List String
  | .list l => if (SVal.list l).truthy then ["Top skills: " ++ String.intercalate ", " l] else []
  | .str s => if (SVal.str s).truthy then ["Top skills: " ++ s] else []

/-- The `strength_items` list built in `generate_recruiter_insights`
(lines 209-227). -/
def strengthItems (strengths : Strengths) : List String :=
  topSkillsItem strengths.top_skills ++ wowItem strengths.wow_factor

/-- The interview-question template selection of `generate_recruiter_insights`
(lines 238-244): one of three fixed phrasings, keyed on `check_name`, each
embedding the check's `explanation`; `none` for every other name. -/
def interviewQuestion (c : CheckResult) : Option String :=
  if c.check_name = "Unexplained employment gaps" then
    some ("Ask about the gap between positions: \"" ++ c.explanation ++ "\"")
  else if c.check_name = "Education and experience mismatch" then
    some ("Explore transition from education to current career path: \"" ++ c.explanation ++ "\"")
  else if c.check_name = "Experience and skills mismatch" then
    some ("Verify skill proficiency: \"" ++ c.explanation ++ "\"")
  else none

/-- The function `generate_recruiter_insights` of `src/analysis.py`
(lines 177-254): critical group, warning group, strength group, interview
group, each appended only when non-empty. -/
def generate_recruiter_insights (results : List CheckResult) (strengths : Strengths) :
    List Insight :=
  let significant_results := results.filter isSignificant
  let deal_breakers := significant_results.filter (fun c => decide (8 ≤ c.severity))
  let criticalGroup : List Insight :=
    if deal_breakers ≠ [] then
      [{ type := "critical"
         title := "Critical Issues Detected"
         description := "Found " ++ toString deal_breakers.length ++
           " critical issues that may significantly impact candidate viability."
         items := deal_breakers.map checkItem }]
    else []
  let red_flags := significant_results.filter (fun c => decide (4 ≤ c.severity ∧ c.severity < 8))
  let warningGroup : List Insight :=
    if red_flags ≠ [] then
      [{ type := "warning"
         title := "Potential Red Flags"
         description := "Found " ++ toString red_flags.length ++
           " issues that warrant further discussion with the candidate."
         items := red_flags.map checkItem }]
    else []
  let strengthGroup : List Insight :=
    if strengths.top_skills.truthy || strengths.wow_factor.truthy then
      [{ type := "strength"
         title := "Resume Strengths"
         description := "Key strengths identified in this candidate's resume:"
         items := strengthItems strengths }]
    else []
  let interview_questions := significant_results.filterMap interviewQuestion
  let interviewGroup : List Insight :=
    if interview_questions ≠ [] then
      [{ type := "interview"
         title := "Suggested Interview Questions"
         description := "Based on resume anomalies, consider asking:"
         items := interview_questions }]
    else []
  criticalGroup ++ warningGroup ++ strengthGroup ++ interviewGroup

/-- The items of the (unique) insight group of type `t`, or `[]` when the
group is absent. -/
def insightItemsOfType (insights : List Insight) (t : String) : List String :=
  ((insights.filter (fun i => i.type = t)).map (fun i => i.items)).flatten

/-- A raw check-result record as parsed from the LLM JSON payload: any of the
five keys may be absent.  Reading an absent key raises in Python
(`KeyError`), modelled through the `Except` monad below. -/
structure RawCheckResult where
  check_name : Option String := none
  passed : Option Bool := none
  explanation : Option String := none
  severity : Option Int := none
  category : Option String := none
deriving Repr, DecidableEq

/-- The data-contract violation raised when a required key is absent
(the spec's `MalformedCheckResult`; a `KeyError` in the Python source). -/
inductive MalformedCheckResult where
  | missingPassed
  | missingSeverity
deriving Repr, DecidableEq

/-- One iteration of the normalization loop of `main` in `src/app.py`
(lines 98-103): `if not result['passed'] and result['severity'] < 4:` then
rewrite to `passed=True, severity=0, explanation=""`.  Python's `and`
short-circuits, so `severity` is only read when `passed` is `False`. -/
def normalizeResult (result : RawCheckResult) : Except MalformedCheckResult RawCheckResult :=
  match result.passed with
  | none => .error .missingPassed
  | some true => .ok result
  | some false =>
    match result.severity with
    | none => .error .missingSeverity
    | some s =>
      if s < 4 then
        .ok { result with passed := some true, severity := some 0, explanation := some "" }
      else .ok result

/-- The whole normalization loop of `main` in `src/app.py` (lines 98-103),
applied record by record in order; the first missing key aborts the loop
with the propagated error, and nothing downstream of the loop runs. -/
def normalizeResults : List RawCheckResult → Except MalformedCheckResult (List RawCheckResult)
  | [] => .ok []
  | r :: rs => do
    let r2 ← normalizeResult r
    let rs2 ← normalizeResults rs
    pure (r2 :: rs2)

/-- The empty buckets `categories = {"Content": [], ...}` of
`calculate_category_scores`, in the mutable-store model below: each bucket
holds references (store indices) to the records appended to it. -/
def bucketsStart : List (String × List Nat) := categoryNames.map (fun c => (c, []))

/-- One iteration of the grouping loop of `calculate_category_scores`
(lines 144-153), in a mutable-store model: Python records are mutable
dicts reached through references, so the store is a list of records and a
reference is an index into it.  `check_result = check.copy()` allocates a
fresh index `j` at the end of the store holding a copy of `check`;
`check_result['passed'] = True` writes through index `j`; the bucket for
the copy's category (when among the fixed five) receives `j`. -/
def groupStep (st : List CheckResult × List (String × List Nat)) (i : Nat) :
    List CheckResult × List (String × List Nat) :=
  let store := st.1
  let buckets := st.2
  let check := store.getD i default
  let is_significant := isSignificant check
  let j := store.length
  let store := store ++ [check]
  let store := if !is_significant && !check.passed then
                 store.set j { check with passed := true }
               else store
  let cr := store.getD j default
  if categoryNames.contains cr.category then
    (store, buckets.map (fun p => if p.1 = cr.category then (p.1, p.2 ++ [j]) else p))
  else (store, buckets)

/-- `calculate_category_scores` in the mutable-store model: the caller's
argument is a list `refs` of references into `store`; the function
returns the final store (to state what happened to the caller's records)
together with the computed category scores, read back through the bucket
references. -/
def calculate_category_scores_store (store : List CheckResult) (refs : List Nat) :
    List CheckResult × List (String × ℚ) :=
  let res := refs.foldl groupStep (store, bucketsStart)
  (res.1, res.2.map (fun p => (p.1, categoryScore (p.2.map (fun j => res.1.getD j default)))))

/-- The overall-score formula as the spec's §4.2 words state it: 100 minus
`K` times the summed severities of the significant issues, clamped to
[0, 100], rounded to 1 decimal place — with no special case for empty
input.  Spec-side definition, for comparison with
`calculate_overall_score_K`. -/
def overallScoreSpec (K : ℚ) (results : List CheckResult) : ℚ :=
  round1 (max 0 (min 100 (100 - K * (sigSeveritySum results : ℚ))))

/-- The per-category score formula as the spec's §4.3 words state it, over
the raw (un-demoted) records whose `category` equals `cat`: 100 when the
category is empty, else `max 0 (100 * pass_rate - severity_sum * (10 / count))`
rounded to 1 decimal.  Spec-side definition, for comparison with
`calculate_category_scores`. -/
def categoryScoreSpec (results : List CheckResult) (cat : String) : ℚ :=
  let checks := results.filter (fun c => c.category = cat)
  if checks = [] then 100
  else
    let count : ℚ := checks.length
    let pass_rate : ℚ := ((checks.filter (fun c => c.passed)).length : ℚ) / count
    let severity_sum : ℚ :=
      ((((checks.filter (fun c => !c.passed)).map (fun c => c.severity)).sum : Int) : ℚ)
    round1 (max 0 (100 * pass_rate - severity_sum * (10 / count)))

/-- The §8 normalization invariant on a list of check results: failed
results carry severity ≥ 4; passed results carry severity 0 and an empty
explanation. -/
def Normalized (results : List CheckResult) : Prop :=
  ∀ c ∈ results, (c.passed = false → 4 ≤ c.severity) ∧
    (c.passed = true → c.severity = 0 ∧ c.explanation = "")

instance (results : List CheckResult) : Decidable (Normalized results) := by
  unfold Normalized; infer_instance

/-- A concrete well-formed failed check (spec §8, scenario A). -/
def sampleFail : CheckResult :=
  { check_name := "Missing contact information", passed := false,
    explanation := "no email", severity := 9, category := "Content" }

/-- A concrete well-formed passed check. -/
def samplePass : CheckResult :=
  { check_name := "Grammar or spelling mistakes", passed := true,
    explanation := "", severity := 0, category := "Format" }

/-- A concrete significant failed check named after one of the three
interview-question templates (spec §8, scenario E). -/
def sampleGap : CheckResult :=
  { check_name := "Unexplained employment gaps", passed := false,
    explanation := "two year gap after 2019", severity := 6, category := "Consistency" }

/-- A raw record with `passed=true` but a non-zero severity and a non-empty
explanation: the normalization loop leaves it untouched. -/
def rawPassedNonzero : RawCheckResult :=
  { check_name := some "Grammar or spelling mistakes", passed := some true,
    explanation := some "looks fine", severity := some 7, category := some "Content" }

/-- A raw record with `passed=true` and the `severity` key absent: the
normalization loop never reads its severity because `and` short-circuits. -/
def rawPassedNoSeverity : RawCheckResult :=
  { check_name := some "Grammar or spelling mistakes", passed := some true,
    explanation := some "", severity := none, category := some "Content" }

/-- A raw record with the `passed` key absent. -/
def rawNoPassed : RawCheckResult :=
  { check_name := some "Repeated phrases", passed := none,
    explanation := some "duplicated bullet", severity := some 5, category := some "Content" }

/-- A raw failed record below the significance threshold. -/
def rawFailLow : RawCheckResult :=
  { check_name := some "Filler or vague phrases", passed := some false,
    explanation := some "too many buzzwords", severity := some 2, category := some "Content" }

/-- What normalization rewrites `rawFailLow` into. -/
def rawFailLowNorm : RawCheckResult :=
  { rawFailLow with passed := some true, severity := some 0, explanation := some "" }

lemma round1_mono {a b : ℚ} (h : a ≤ b) : round1 a ≤ round1 b := by
  have hr : round (10 * a) ≤ round (10 * b) := by
    rw [round_eq, round_eq]
    exact Int.floor_le_floor (by linarith)
  have hc : ((round (10 * a) : ℤ) : ℚ) ≤ ((round (10 * b) : ℤ) : ℚ) := by exact_mod_cast hr
  unfold round1
  linarith

lemma calculate_overall_score_K_eq (K : ℚ) (results : List CheckResult) (h : results ≠ []) :
    calculate_overall_score_K K results =
      round1 (max 0 (min 100 (100 - (sigSeveritySum results : ℚ) * K))) := by
  simp only [calculate_overall_score_K, if_neg h]

/-- C1 fails at the empty sequence: the code returns 0 there, while the
claimed formula yields 100 (shown at the claimed default K = 1 and at the
source's hardcoded K = 0.77). -/
theorem c1_counterexample :
    calculate_overall_score_K 1 [] = 0 ∧ overallScoreSpec 1 [] = 100 ∧
    calculate_overall_score [] = 0 ∧ overallScoreSpec (77 / 100) [] = 100 := by
  refine ⟨rfl, ?_, rfl, ?_⟩ <;>
  · rw [overallScoreSpec, round1]
    norm_num [sigSeveritySum, round_eq, Int.floor_eq_iff]

/-- C1 (amended): for every NON-empty sequence of check results and every
penalty coefficient K (0.77 in `src/analysis.py`, 1.2 in the `c4.py`
variant), the overall score is 100 minus K times the summed severities of
the significant issues, clamped to [0, 100] and rounded to 1 decimal; the
empty sequence instead scores 0. -/
theorem c1_overall_score_formula (K : ℚ) (results : List CheckResult) (h : results ≠ []) :
    calculate_overall_score_K K results = overallScoreSpec K results := by
  rw [calculate_overall_score_K_eq K results h, overallScoreSpec, mul_comm]

/-- Witness for `c1_overall_score_formula` at a concrete one-element input
and the source's coefficient. -/
theorem c1_overall_score_formula_witness :
    (([sampleFail] : List CheckResult) ≠ []) ∧
    calculate_overall_score_K (77 / 100) [sampleFail] = overallScoreSpec (77 / 100) [sampleFail] :=
  ⟨by decide, c1_overall_score_formula (77 / 100) [sampleFail] (by decide)⟩

lemma sigSeveritySum_append (l1 l2 : List CheckResult) :
    sigSeveritySum (l1 ++ l2) = sigSeveritySum l1 + sigSeveritySum l2 := by
  simp [sigSeveritySum, List.filter_append]

lemma sigSeveritySum_cons_sig {c : CheckResult} (l : List CheckResult)
    (h : isSignificant c = true) :
    sigSeveritySum (c :: l) = c.severity + sigSeveritySum l := by
  simp [sigSeveritySum, List.filter_cons, h]

/-- C9: the overall score is monotonically non-increasing in each individual
significant severity — raising the severity of one significant failed
result, all else fixed, can only lower (or keep) the score. -/
theorem c9_overall_score_monotone (l1 l2 : List CheckResult) (c : CheckResult) (s2 : Int)
    (hp : c.passed = false) (h4 : 4 ≤ c.severity) (hle : c.severity ≤ s2) (h10 : s2 ≤ 10) :
    calculate_overall_score (l1 ++ { c with severity := s2 } :: l2) ≤
      calculate_overall_score (l1 ++ c :: l2) := by
  have hne1 : l1 ++ { c with severity := s2 } :: l2 ≠ [] := by simp
  have hne2 : l1 ++ c :: l2 ≠ [] := by simp
  have hsig : isSignificant c = true := by
    simp [isSignificant, hp]; omega
  have hsig2 : isSignificant { c with severity := s2 } = true := by
    simp [isSignificant, hp]; omega
  rw [calculate_overall_score, calculate_overall_score,
    calculate_overall_score_K_eq _ _ hne1, calculate_overall_score_K_eq _ _ hne2,
    sigSeveritySum_append, sigSeveritySum_append,
    sigSeveritySum_cons_sig l2 hsig, sigSeveritySum_cons_sig l2 hsig2]
  apply round1_mono
  apply max_le_max le_rfl
  apply min_le_min le_rfl
  have hs2 : ({ c with severity := s2 } : CheckResult).severity = s2 := rfl
  rw [hs2]
  push_cast
  have hq : (c.severity : ℚ) ≤ (s2 : ℚ) := by exact_mod_cast hle
  linarith

/-- Witness for `c9_overall_score_monotone` at a concrete significant check
whose severity is raised from 9 to 10. -/
theorem c9_overall_score_monotone_witness :
    (sampleFail.passed = false) ∧ (4 ≤ sampleFail.severity) ∧
    (sampleFail.severity ≤ 10) ∧ ((10 : Int) ≤ 10) ∧
    calculate_overall_score ([] ++ { sampleFail with severity := 10 } :: []) ≤
      calculate_overall_score ([] ++ sampleFail :: []) :=
  ⟨rfl, by decide, by decide, by decide,
    c9_overall_score_monotone [] [] sampleFail 10 rfl (by decide) (by decide) (by decide)⟩

lemma demote_eq_self {c : CheckResult} (h : c.passed = false → 4 ≤ c.severity) :
    demote c = c := by
  unfold demote
  cases hp : c.passed with
  | true => simp
  | false => simp [isSignificant, hp, h hp]

lemma categoryBucket_of_normalized {results : List CheckResult} (hN : Normalized results)
    (cat : String) :
    categoryBucket results cat = results.filter (fun c => c.category = cat) := by
  unfold categoryBucket
  congr 1
  rw [List.map_congr_left (fun c hc => demote_eq_self (hN c hc).1)]
  exact List.map_id' results

lemma categoryScore_eq_spec {results : List CheckResult} (hN : Normalized results)
    (cat : String) :
    categoryScore (categoryBucket results cat) = categoryScoreSpec results cat := by
  rw [categoryBucket_of_normalized hN cat]
  unfold categoryScore categoryScoreSpec
  by_cases hc : results.filter (fun c => c.category = cat) = []
  · simp [hc]
  · have hpos : 0 < (results.filter (fun c => c.category = cat)).length :=
      List.length_pos.mpr hc
    simp only [if_neg hc, if_pos hpos]

/-- C2: for every normalized input and each of the five fixed categories,
the category score is 100 when the category holds no checks, and otherwise
`max 0 (100 * pass_rate - severity_sum * (10 / count))` rounded to 1
decimal, computed from the checks of that category; records with a
category outside the fixed five reach no bucket and raise no error. -/
theorem c2_category_scores (results : List CheckResult) (hN : Normalized results) :
    calculate_category_scores results =
      categoryNames.map (fun cat => (cat, categoryScoreSpec results cat)) := by
  unfold calculate_category_scores
  exact List.map_congr_left (fun cat _ => by rw [categoryScore_eq_spec hN cat])

/-- Witness for `c2_category_scores` at a concrete normalized two-element
input. -/
theorem c2_category_scores_witness :
    Normalized [sampleFail, samplePass] ∧
    calculate_category_scores [sampleFail, samplePass] =
      categoryNames.map (fun cat => (cat, categoryScoreSpec [sampleFail, samplePass] cat)) :=
  ⟨by decide, c2_category_scores [sampleFail, samplePass] (by decide)⟩

lemma normalizeResult_of_passed_none {r : RawCheckResult} (hp : r.passed = none) :
    normalizeResult r = .error .missingPassed := by
  unfold normalizeResult; rw [hp]

lemma normalizeResult_of_passed_true {r : RawCheckResult} (hp : r.passed = some true) :
    normalizeResult r = .ok r := by
  unfold normalizeResult; rw [hp]

lemma normalizeResult_of_sev_none {r : RawCheckResult} (hp : r.passed = some false)
    (hs : r.severity = none) : normalizeResult r = .error .missingSeverity := by
  unfold normalizeResult; rw [hp, hs]

lemma normalizeResult_of_sev_some {r : RawCheckResult} {s : Int} (hp : r.passed = some false)
    (hs : r.severity = some s) :
    normalizeResult r =
      if s < 4 then
        .ok { r with passed := some true, severity := some 0, explanation := some "" }
      else .ok r := by
  unfold normalizeResult; rw [hp, hs]

lemma normalizeResult_ok_failed {r r2 : RawCheckResult} (h : normalizeResult r = .ok r2)
    (hp : r2.passed = some false) : ∃ s, r2.severity = some s ∧ 4 ≤ s := by
  cases hpr : r.passed with
  | none => rw [normalizeResult_of_passed_none hpr] at h; exact absurd h (by simp)
  | some b =>
    cases b with
    | true =>
      rw [normalizeResult_of_passed_true hpr] at h
      simp only [Except.ok.injEq] at h
      subst h
      rw [hpr] at hp
      exact absurd hp (by simp)
    | false =>
      cases hs : r.severity with
      | none =>
        rw [normalizeResult_of_sev_none hpr hs] at h
        exact absurd h (by simp)
      | some s =>
        rw [normalizeResult_of_sev_some hpr hs] at h
        by_cases h4 : s < 4
        · rw [if_pos h4] at h
          simp only [Except.ok.injEq] at h
          subst h
          simp at hp
        · rw [if_neg h4] at h
          simp only [Except.ok.injEq] at h
          subst h
          exact ⟨s, hs, by omega⟩

lemma normalizeResult_ok_passed {r r2 : RawCheckResult} (h : normalizeResult r = .ok r2)
    (hp : r2.passed = some true)
    (hraw : r.passed = some true → r.severity = some 0 ∧ r.explanation = some "") :
    r2.severity = some 0 ∧ r2.explanation = some "" := by
  cases hpr : r.passed with
  | none => rw [normalizeResult_of_passed_none hpr] at h; exact absurd h (by simp)
  | some b =>
    cases b with
    | true =>
      rw [normalizeResult_of_passed_true hpr] at h
      simp only [Except.ok.injEq] at h
      subst h
      exact hraw hpr
    | false =>
      cases hs : r.severity with
      | none =>
        rw [normalizeResult_of_sev_none hpr hs] at h
        exact absurd h (by simp)
      | some s =>
        rw [normalizeResult_of_sev_some hpr hs] at h
        by_cases h4 : s < 4
        · rw [if_pos h4] at h
          simp only [Except.ok.injEq] at h
          subst h
          exact ⟨rfl, rfl⟩
        · rw [if_neg h4] at h
          simp only [Except.ok.injEq] at h
          subst h
          rw [hpr] at hp
          exact absurd hp (by simp)

lemma normalizeResults_cons_ok {r : RawCheckResult} {rs ns : List RawCheckResult}
    (h : normalizeResults (r :: rs) = .ok ns) :
    ∃ r2 ns2, normalizeResult r = .ok r2 ∧ normalizeResults rs = .ok ns2 ∧ ns = r2 :: ns2 := by
  unfold normalizeResults at h
  cases h1 : normalizeResult r with
  | error e => rw [h1] at h; exact absurd h (by intro hc; exact Except.noConfusion hc)
  | ok r2 =>
    rw [h1] at h
    cases h2 : normalizeResults rs with
    | error e => rw [h2] at h; exact absurd h (by intro hc; exact Except.noConfusion hc)
    | ok ns2 =>
      rw [h2] at h
      injection h with h
      exact ⟨r2, ns2, rfl, rfl, h.symm⟩

/-- C3 fails on a raw record with `passed=true` and a non-zero severity and
non-empty explanation: normalization returns it unchanged, so the claimed
invariant `passed=true ⇒ severity = 0 ∧ explanation = ""` does not hold
on its output. -/
theorem c3_counterexample :
    normalizeResults [rawPassedNonzero] = .ok [rawPassedNonzero] ∧
    rawPassedNonzero.passed = some true ∧
    ¬(rawPassedNonzero.severity = some 0 ∧ rawPassedNonzero.explanation = some "") :=
  ⟨rfl, rfl, by decide⟩

/-- C3 (amended): after successful normalization, `passed=false ⇒ severity ≥ 4`
holds unconditionally; `passed=true ⇒ severity = 0 ∧ explanation = ""` holds
only under the additional assumption that raw `passed=true` records already
carried severity 0 and an empty explanation, because the loop rewrites only
failed records with severity below 4 and returns passed records unchanged. -/
theorem c3_normalization_invariant (rs ns : List RawCheckResult)
    (h : normalizeResults rs = .ok ns) :
    (∀ r ∈ ns, r.passed = some false → ∃ s, r.severity = some s ∧ 4 ≤ s) ∧
    ((∀ r ∈ rs, r.passed = some true → r.severity = some 0 ∧ r.explanation = some "") →
      ∀ r ∈ ns, r.passed = some true → r.severity = some 0 ∧ r.explanation = some "") := by
  induction rs generalizing ns with
  | nil =>
    unfold normalizeResults at h
    injection h with h
    subst h
    exact ⟨by simp, by simp⟩
  | cons r rs ih =>
    obtain ⟨r2, ns2, h1, h2, rfl⟩ := normalizeResults_cons_ok h
    obtain ⟨ihf, ihp⟩ := ih ns2 h2
    constructor
    · intro x hx hxp
      rcases List.mem_cons.mp hx with rfl | hx2
      · exact normalizeResult_ok_failed h1 hxp
      · exact ihf x hx2 hxp
    · intro hraw x hx hxp
      rcases List.mem_cons.mp hx with rfl | hx2
      · exact normalizeResult_ok_passed h1 hxp (fun hpr => hraw r (by simp) hpr)
      · exact ihp (fun y hy => hraw y (List.mem_cons_of_mem r hy)) x hx2 hxp

/-- Witness for `c3_normalization_invariant` on a concrete raw input whose
low-severity failure is rewritten. -/
theorem c3_normalization_invariant_witness :
    (normalizeResults [rawFailLow, rawPassedNonzero] = .ok [rawFailLowNorm, rawPassedNonzero]) ∧
    (∀ r ∈ [rawFailLowNorm, rawPassedNonzero], r.passed = some false →
      ∃ s, r.severity = some s ∧ 4 ≤ s) :=
  ⟨rfl, (c3_normalization_invariant [rawFailLow, rawPassedNonzero]
    [rawFailLowNorm, rawPassedNonzero] rfl).1⟩

/-- C4 fails on a record with `passed=true` whose `severity` key is absent:
because Python's `and` short-circuits, the normalization loop never reads
`severity` of a passed record, so it succeeds instead of failing. -/
theorem c4_counterexample :
    rawPassedNoSeverity.severity = none ∧
    normalizeResults [rawPassedNoSeverity] = .ok [rawPassedNoSeverity] :=
  ⟨rfl, rfl⟩

/-- C4 (amended): normalization fails with a `MalformedCheckResult` error,
propagated to the caller so that no scores or insights are produced, for
exactly the inputs containing a record that lacks `passed`, or that lacks
`severity` while `passed` is false; a `passed=true` record with a missing
`severity` is not detected because the significance test short-circuits. -/
theorem c4_missing_field_error (rs : List RawCheckResult) :
    (∃ e, normalizeResults rs = .error e) ↔
      ∃ r ∈ rs, r.passed = none ∨ (r.passed = some false ∧ r.severity = none) := by
  induction rs with
  | nil =>
    constructor
    · rintro ⟨e, he⟩
      exact absurd he (by intro hc; exact Except.noConfusion hc)
    · rintro ⟨r, hr, _⟩
      exact absurd hr (by simp)
  | cons r rs ih =>
    constructor
    · rintro ⟨e, he⟩
      cases h1 : normalizeResult r with
      | error e1 =>
        cases hpr : r.passed with
        | none => exact ⟨r, by simp, Or.inl hpr⟩
        | some b =>
          cases b with
          | true =>
            rw [normalizeResult_of_passed_true hpr] at h1
            exact absurd h1 (by intro hc; exact Except.noConfusion hc)
          | false =>
            cases hs : r.severity with
            | none => exact ⟨r, by simp, Or.inr ⟨hpr, hs⟩⟩
            | some s =>
              rw [normalizeResult_of_sev_some hpr hs] at h1
              by_cases h4 : s < 4
              · rw [if_pos h4] at h1
                exact absurd h1 (by intro hc; exact Except.noConfusion hc)
              · rw [if_neg h4] at h1
                exact absurd h1 (by intro hc; exact Except.noConfusion hc)
      | ok r2 =>
        unfold normalizeResults at he
        rw [h1] at he
        cases h2 : normalizeResults rs with
        | error e2 =>
          obtain ⟨x, hx, hxp⟩ := ih.mp ⟨e2, h2⟩
          exact ⟨x, List.mem_cons_of_mem r hx, hxp⟩
        | ok ns2 =>
          rw [h2] at he
          exact absurd he (by intro hc; exact Except.noConfusion hc)
    · rintro ⟨x, hx, hxp⟩
      rcases List.mem_cons.mp hx with rfl | hx2
      · rcases hxp with hpn | ⟨hpf, hsn⟩
        · refine ⟨.missingPassed, ?_⟩
          unfold normalizeResults
          rw [normalizeResult_of_passed_none hpn]
          rfl
        · refine ⟨.missingSeverity, ?_⟩
          unfold normalizeResults
          rw [normalizeResult_of_sev_none hpf hsn]
          rfl
      · obtain ⟨e2, h2⟩ := ih.mpr ⟨x, hx2, hxp⟩
        cases h1 : normalizeResult r with
        | error e1 =>
          refine ⟨e1, ?_⟩
          unfold normalizeResults
          rw [h1]
          rfl
        | ok r2 =>
          refine ⟨e2, ?_⟩
          unfold normalizeResults
          rw [h1, h2]
          rfl

/-- Witness for `c4_missing_field_error`: a record whose `passed` key is
absent makes normalization error out. -/
theorem c4_missing_field_error_witness :
    (rawNoPassed.passed = none) ∧ (∃ e, normalizeResults [rawNoPassed] = .error e) :=
  ⟨rfl, (c4_missing_field_error [rawNoPassed]).mpr ⟨rawNoPassed, by simp, Or.inl rfl⟩⟩

lemma normalizeResult_idem {r r2 : RawCheckResult} (h : normalizeResult r = .ok r2) :
    normalizeResult r2 = .ok r2 := by
  cases hpr : r.passed with
  | none => rw [normalizeResult_of_passed_none hpr] at h; exact absurd h (by simp)
  | some b =>
    cases b with
    | true =>
      rw [normalizeResult_of_passed_true hpr] at h
      simp only [Except.ok.injEq] at h
      subst h
      exact normalizeResult_of_passed_true hpr
    | false =>
      cases hs : r.severity with
      | none =>
        rw [normalizeResult_of_sev_none hpr hs] at h
        exact absurd h (by simp)
      | some s =>
        rw [normalizeResult_of_sev_some hpr hs] at h
        by_cases h4 : s < 4
        · rw [if_pos h4] at h
          simp only [Except.ok.injEq] at h
          subst h
          exact normalizeResult_of_passed_true rfl
        · rw [if_neg h4] at h
          simp only [Except.ok.injEq] at h
          subst h
          rw [normalizeResult_of_sev_some hpr hs, if_neg h4]

/-- C8: normalization is idempotent — its successful output is a fixed
point, so re-running the loop on an already-normalized list returns the
list unchanged. -/
theorem c8_normalization_idempotent (rs ns : List RawCheckResult)
    (h : normalizeResults rs = .ok ns) : normalizeResults ns = .ok ns := by
  induction rs generalizing ns with
  | nil =>
    unfold normalizeResults at h
    injection h with h
    subst h
    rfl
  | cons r rs ih =>
    obtain ⟨r2, ns2, h1, h2, rfl⟩ := normalizeResults_cons_ok h
    unfold normalizeResults
    rw [normalizeResult_idem h1, ih ns2 h2]
    rfl

/-- Witness for `c8_normalization_idempotent` at a concrete input whose
low-severity failure is rewritten. -/
theorem c8_normalization_idempotent_witness :
    (normalizeResults [rawFailLow] = .ok [rawFailLowNorm]) ∧
    normalizeResults [rawFailLowNorm] = .ok [rawFailLowNorm] :=
  ⟨rfl, c8_normalization_idempotent [rawFailLow] [rawFailLowNorm] rfl⟩

lemma generate_recruiter_insights_nil (strengths : Strengths) :
    generate_recruiter_insights [] strengths =
      if strengths.top_skills.truthy || strengths.wow_factor.truthy then
        [{ type := "strength", title := "Resume Strengths",
           description := "Key strengths identified in this candidate's resume:",
           items := strengthItems strengths }]
      else [] := by
  simp [generate_recruiter_insights]

/-- C5: the empty result sequence yields overall score 0 (not 100), all
five category scores exactly 100, and an insight list with no critical,
warning or interview group; a strength group appears only if the
strengths record is non-empty (truthy). -/
theorem c5_empty_results (strengths : Strengths) :
    calculate_overall_score [] = 0 ∧
    calculate_category_scores [] =
      [("Content", 100), ("Format", 100), ("Consistency", 100),
       ("Relevance", 100), ("Credibility", 100)] ∧
    (∀ i ∈ generate_recruiter_insights [] strengths,
      i.type ≠ "critical" ∧ i.type ≠ "warning" ∧ i.type ≠ "interview") ∧
    (generate_recruiter_insights [] strengths ≠ [] →
      strengths.top_skills.truthy = true ∨ strengths.wow_factor.truthy = true) := by
  refine ⟨rfl, rfl, ?_, ?_⟩
  · rw [generate_recruiter_insights_nil]
    by_cases hc : (strengths.top_skills.truthy || strengths.wow_factor.truthy) = true
    · rw [if_pos hc]
      intro i hi
      simp only [List.mem_singleton] at hi
      subst hi
      exact ⟨by simp, by simp, by simp⟩
    · rw [if_neg hc]
      intro i hi
      exact absurd hi (by simp)
  · rw [generate_recruiter_insights_nil]
    by_cases hc : (strengths.top_skills.truthy || strengths.wow_factor.truthy) = true
    · intro _
      exact Bool.or_eq_true_iff.mp hc
    · rw [if_neg hc]
      intro h
      exact absurd rfl h

/-- Witness for `c5_empty_results`: with a non-empty strengths record the
insight list for the empty result sequence is the lone strength group. -/
theorem c5_empty_results_witness :
    (generate_recruiter_insights [] { top_skills := .list ["Python"], wow_factor := .str "" } ≠ []) ∧
    (SVal.truthy (.list ["Python"]) = true ∨ SVal.truthy (.str "") = true) :=
  ⟨by decide, (c5_empty_results { top_skills := .list ["Python"], wow_factor := .str "" }).2.2.2
    (by decide)⟩

/-- C6: the interview items are exactly one templated question, in input
order, for each significant failed result whose `check_name` is one of
the three canonical names, each question embedding that check's
explanation; significant failures under any other name yield no item. -/
theorem c6_interview_items (results : List CheckResult) (strengths : Strengths) :
    insightItemsOfType (generate_recruiter_insights results strengths) "interview"
      = (results.filter isSignificant).filterMap interviewQuestion ∧
    (∀ c : CheckResult,
      (interviewQuestion c = none ↔
        ¬(c.check_name = "Unexplained employment gaps" ∨
          c.check_name = "Education and experience mismatch" ∨
          c.check_name = "Experience and skills mismatch")) ∧
      (c.check_name = "Unexplained employment gaps" →
        interviewQuestion c =
          some ("Ask about the gap between positions: \"" ++ c.explanation ++ "\"")) ∧
      (c.check_name = "Education and experience mismatch" →
        interviewQuestion c =
          some ("Explore transition from education to current career path: \"" ++
            c.explanation ++ "\"")) ∧
      (c.check_name = "Experience and skills mismatch" →
        interviewQuestion c =
          some ("Verify skill proficiency: \"" ++ c.explanation ++ "\""))) := by
  constructor
  · simp only [generate_recruiter_insights, insightItemsOfType, List.filter_append,
      List.map_append, List.flatten_append]
    split_ifs <;> simp_all
  · intro c
    refine ⟨?_, ?_, ?_, ?_⟩
    · unfold interviewQuestion
      split_ifs with h1 h2 h3 <;> simp_all
    · intro h1
      unfold interviewQuestion
      rw [if_pos h1]
    · intro h2
      unfold interviewQuestion
      rw [if_neg (by rw [h2]; decide), if_pos h2]
    · intro h3
      unfold interviewQuestion
      rw [if_neg (by rw [h3]; decide), if_neg (by rw [h3]; decide), if_pos h3]

/-- Witness for `c6_interview_items`: the employment-gap template at a
concrete significant failed check. -/
theorem c6_interview_items_witness :
    (sampleGap.check_name = "Unexplained employment gaps") ∧
    interviewQuestion sampleGap =
      some ("Ask about the gap between positions: \"" ++ sampleGap.explanation ++ "\"") :=
  ⟨rfl, ((c6_interview_items [sampleGap] {}).2 sampleGap).2.1 rfl⟩

/-- C7: the standout-feature strength item joins a multi-element
`wow_factor` with commas plus a final ", and {last}", uses a singleton's
element unwrapped, and uses a plain string as-is; on scenario C's input
the strength items are exactly the two claimed strings. -/
theorem c7_wow_factor_format :
    (∀ l : List String, 1 < l.length →
      wowItem (.list l) =
        ["Standout feature: " ++
          (String.intercalate ", " l.dropLast ++ ", and " ++ l.getLastD "")]) ∧
    (∀ a : String, wowItem (.list [a]) = ["Standout feature: " ++ a]) ∧
    (∀ s : String, s ≠ "" → wowItem (.str s) = ["Standout feature: " ++ s]) ∧
    insightItemsOfType
        (generate_recruiter_insights []
          { top_skills := .list ["Python", "SQL"],
            wow_factor := .list ["Patent A", "Patent B", "Patent C"] })
        "strength"
      = ["Top skills: Python, SQL",
         "Standout feature: Patent A, Patent B, and Patent C"] := by
  refine ⟨?_, ?_, ?_, ?_⟩
  · intro l hl
    have hne : l ≠ [] := by
      intro h
      subst h
      simp at hl
    simp [wowItem, SVal.truthy, hne, hl, String.append_assoc]
  · intro a
    rfl
  · intro s hs
    simp [wowItem, SVal.truthy, hs]
  · rfl

/-- Witness for `c7_wow_factor_format` at scenario C's three-element
`wow_factor`. -/
theorem c7_wow_factor_format_witness :
    (1 < (["Patent A", "Patent B", "Patent C"] : List String).length) ∧
    wowItem (.list ["Patent A", "Patent B", "Patent C"]) =
      ["Standout feature: " ++
        (String.intercalate ", " (["Patent A", "Patent B", "Patent C"] : List String).dropLast ++
          ", and " ++ (["Patent A", "Patent B", "Patent C"] : List String).getLastD "")] :=
  ⟨by decide, c7_wow_factor_format.1 ["Patent A", "Patent B", "Patent C"] (by decide)⟩

lemma groupStep_fst_length (st : List CheckResult × List (String × List Nat)) (i : Nat) :
    (groupStep st i).1.length = st.1.length + 1 := by
  dsimp only [groupStep]
  split_ifs <;> simp

lemma groupStep_fst_getElem (st : List CheckResult × List (String × List Nat)) (i k : Nat)
    (hk : k < st.1.length) : ((groupStep st i).1)[k]? = st.1[k]? := by
  have hset : ∀ v : CheckResult,
      ((st.1 ++ [st.1.getD i default]).set st.1.length v)[k]? = st.1[k]? := by
    intro v
    rw [List.getElem?_set_ne (by omega), List.getElem?_append_left hk]
  dsimp only [groupStep]
  split_ifs <;>
    simp only [hset, List.getElem?_append_left hk]

lemma foldl_groupStep_frame (refs : List Nat) (st : List CheckResult × List (String × List Nat))
    (k : Nat) (hk : k < st.1.length) :
    ((refs.foldl groupStep st).1)[k]? = st.1[k]? := by
  induction refs generalizing st with
  | nil => rfl
  | cons i rest ih =>
    rw [List.foldl_cons]
    rw [ih (groupStep st i) (by rw [groupStep_fst_length]; omega)]
    exact groupStep_fst_getElem st i k hk

/-- C10: in the mutable-store model, `calculate_category_scores` never
mutates the caller's records — each loop iteration writes only through
the fresh index allocated by `check.copy()`, so after the call every
record referenced by the input retains its original `passed`,
`severity`, `explanation` and `category` values. -/
theorem c10_no_input_mutation (store : List CheckResult) (refs : List Nat) (i : Nat)
    (hi : i ∈ refs) (hlen : i < store.length) :
    ((calculate_category_scores_store store refs).1)[i]? = store[i]? := by
  unfold calculate_category_scores_store
  exact foldl_groupStep_frame refs (store, bucketsStart) i hlen

/-- Witness for `c10_no_input_mutation` at a concrete two-record store. -/
theorem c10_no_input_mutation_witness :
    ((0 : Nat) ∈ [0, 1]) ∧ (0 < [sampleFail, samplePass].length) ∧
    ((calculate_category_scores_store [sampleFail, samplePass] [0, 1]).1)[0]? =
      [sampleFail, samplePass][0]? :=
  ⟨by decide, by decide,
    c10_no_input_mutation [sampleFail, samplePass] [0, 1] 0 (by decide) (by decide)⟩
